import Mathlib

/-!
Shallow embedding of the CreditBoost repository's two scripts:

* `duckduckgo_search_scrape.py` — `duckduckgo_search`, `scrape_page`, and
  the `__main__` pipeline that scrapes each returned URL in order;
* `daily_learn_notify.py` — `search_and_notify`, which searches and builds
  a desktop-notification message.

External collaborators (the DDGS search provider, `requests.get`, and
BeautifulSoup paragraph extraction) are modelled as oracle functions passed
in as parameters; a Python exception raised by a collaborator or by the
embedded code itself is an `Except.error` value, and `Except.error`
escaping a definition models an uncaught exception propagating to the
caller.
-/

namespace CreditBoost

/-- Python exception values that can arise in these scripts: a
`requests` network error or timeout, an HTTP error from
`raise_for_status`, a `KeyError` from a dict lookup, and a parser
error. -/
inductive PyError where
  | requestError (msg : String)
  | httpError (status : Nat)
  | keyError (key : String)
  | parseError (msg : String)
  deriving Repr, DecidableEq

/-- A Python dict with string keys and string values, as returned by the
search providers (only string-valued fields are consumed downstream). -/
abbrev Dict := List (String × String)

/-- Python `d[k]` on a dict: the value when the key is present, a
`KeyError` otherwise. -/
def dictGet (d : Dict) (k : String) : Except PyError String :=
  match d.lookup k with
  | some v => Except.ok v
  | none => Except.error (PyError.keyError k)

/-- `duckduckgo_search(query, max_results=3)` from
`duckduckgo_search_scrape.py`: calls `ddgs.text(query, max_results)` and
extracts `r['href']` from each result dict. No exception is caught, so a
provider error or a missing `'href'` key propagates to the caller. -/
def duckduckgo_search (ddgs_text : String → Nat → Except PyError (List Dict))
    (query : String) (max_results : Nat) : Except PyError (List String) := do
  let results ← ddgs_text query max_results
  results.mapM (fun r => dictGet r "href")

/-- `duckduckgo_search` instrumented with the list of provider
invocations: the source calls `ddgs.text(query, max_results=max_results)`
exactly once, unconditionally, with the arguments it was given. -/
def duckduckgo_search_traced (ddgs_text : String → Nat → Except PyError (List Dict))
    (query : String) (max_results : Nat) :
    Except PyError (List String) × List (String × Nat) :=
  (duckduckgo_search ddgs_text query max_results, [(query, max_results)])

/-- An HTTP response as consumed by `scrape_page`: a status code and the
body text. -/
structure HttpResponse where
  status_code : Nat
  text : String
  deriving Repr, DecidableEq

/-- `res.raise_for_status()` from `requests`: raises an `HTTPError` for a
4xx client error or a 5xx server error, returns normally otherwise. -/
def raise_for_status (res : HttpResponse) : Except PyError Unit :=
  if 400 ≤ res.status_code ∧ res.status_code < 600 then
    Except.error (PyError.httpError res.status_code)
  else Except.ok ()

/-- The body of the `try` block of `scrape_page`: fetch the URL,
raise for a bad status, extract the paragraph texts from the body, join
them with newlines and truncate to 2000 characters. Any step may raise. -/
def scrape_page_body (requests_get : String → Except PyError HttpResponse)
    (find_all_p : String → Except PyError (List String))
    (url : String) : Except PyError String := do
  let res ← requests_get url
  let _ ← raise_for_status res
  let paragraphs ← find_all_p res.text
  pure ((String.intercalate "\n" paragraphs).take 2000)

/-- `scrape_page(url)` from `duckduckgo_search_scrape.py`: runs the
`try` body; the bare `except Exception` handler turns every exception into
the empty string. -/
def scrape_page (requests_get : String → Except PyError HttpResponse)
    (find_all_p : String → Except PyError (List String))
    (url : String) : String :=
  match scrape_page_body requests_get find_all_p url with
  | Except.ok text => text
  | Except.error _ => ""

/-- The `__main__` pipeline of `duckduckgo_search_scrape.py`:
`duckduckgo_search(query)` with the default `max_results=3`, then
`scrape_page(url)` for each URL in order. An error at the search step
propagates; `scrape_page` itself never raises. -/
def scrape_main (ddgs_text : String → Nat → Except PyError (List Dict))
    (requests_get : String → Except PyError HttpResponse)
    (find_all_p : String → Except PyError (List String))
    (query : String) : Except PyError (List String) := do
  let urls ← duckduckgo_search ddgs_text query 3
  pure (urls.map (scrape_page requests_get find_all_p))

/-- The observable outcome of one `search_and_notify` run: the URLs
collected, the notification message, and the `notify-send` command line
passed to `subprocess.run`. -/
structure NotifyRun where
  urls : List String
  notify_message : String
  notify_cmd : List String
  deriving Repr, DecidableEq

/-- `search_and_notify(query="latest tech news")` from
`daily_learn_notify.py`: calls `search(query, max_results=3)`, extracts
`r['url']` from each result dict, builds the f-string message and the
`notify-send` command. No exception is caught. -/
def search_and_notify (search : String → Nat → Except PyError (List Dict))
    (query : String) : Except PyError NotifyRun := do
  let results ← search query 3
  let urls ← results.mapM (fun r => dictGet r "url")
  let notify_message :=
    "Search done for '" ++ query ++ "', found " ++ toString urls.length ++ " results."
  Except.ok { urls := urls, notify_message := notify_message,
              notify_cmd := ["notify-send", "TinyLlama", notify_message] }

/-! ### Shared helper lemmas -/

/-- `String.take` is `List.take` on the underlying character list. -/
theorem string_take_eq (s : String) (n : Nat) : s.take n = String.mk (s.data.take n) :=
  String.ext (String.data_take s n)

/-- Truncating a string to `n` characters yields at most `n` characters. -/
theorem string_take_length_le (s : String) (n : Nat) : (s.take n).length ≤ n := by
  have h : (s.take n).length = (s.take n).data.length := rfl
  rw [h, string_take_eq]
  exact List.length_take_le n s.data

/-- Inversion for a successful `Except` bind: the first step succeeded and
the continuation succeeded on its value. -/
theorem except_bind_ok_inv {ε α β : Type} {x : Except ε α} {f : α → Except ε β} {b : β}
    (h : x >>= f = Except.ok b) : ∃ a, x = Except.ok a ∧ f a = Except.ok b := by
  cases x with
  | error e => exact Except.noConfusion h
  | ok a => exact ⟨a, rfl, h⟩

/-- Binding a successful `Except` runs the continuation. -/
theorem except_ok_bind {ε α β : Type} (a : α) (f : α → Except ε β) :
    (Except.ok a >>= f : Except ε β) = f a := rfl

/-- Binding a failed `Except` propagates the error. -/
theorem except_error_bind {ε α β : Type} (e : ε) (f : α → Except ε β) :
    (Except.error e >>= f : Except ε β) = Except.error e := rfl

/-- Extracting `key` from a list of well-formed one-field dicts recovers
the values. -/
theorem mapM_dictGet (key : String) (vals : List String) :
    (vals.map (fun v => [(key, v)])).mapM (fun r => dictGet r key) = Except.ok vals := by
  induction vals with
  | nil => rfl
  | cons v vs ih =>
    rw [List.map_cons, List.mapM_cons, ih]
    simp [dictGet, except_ok_bind]

/-! ### Concrete collaborator behaviours used in witnesses -/

/-- A fetch collaborator that returns an empty page with status 200. -/
def exGetEmptyPage : String → Except PyError HttpResponse :=
  fun _ => Except.ok ⟨200, "<html></html>"⟩

/-- A fetch collaborator that raises a timeout on every URL. -/
def exGetTimeout : String → Except PyError HttpResponse :=
  fun _ => Except.error (PyError.requestError "timeout")

/-- A fetch collaborator returning a 200 response whose body is the URL. -/
def exGetOk : String → Except PyError HttpResponse :=
  fun url => Except.ok ⟨200, url⟩

/-- A parse collaborator extracting one paragraph from every body. -/
def exSoupOne : String → Except PyError (List String) :=
  fun body => Except.ok ["content of " ++ body]

/-- A parse collaborator finding no paragraph blocks in any body. -/
def exSoupEmpty : String → Except PyError (List String) :=
  fun _ => Except.ok []

/-! ### Claim theorems -/

/-- C2: for every successful fetch (the `try` body of `scrape_page`
returns normally), the text returned by `scrape_page` has length at most
2000 characters. -/
theorem scrape_success_bounded (g : String → Except PyError HttpResponse)
    (s : String → Except PyError (List String)) (url : String) (t : String)
    (h : scrape_page_body g s url = Except.ok t) :
    (scrape_page g s url).length ≤ 2000 := by
  unfold scrape_page
  rw [h]
  unfold scrape_page_body at h
  obtain ⟨res, hres, h⟩ := except_bind_ok_inv h
  obtain ⟨u, hst, h⟩ := except_bind_ok_inv h
  obtain ⟨paragraphs, hp, h⟩ := except_bind_ok_inv h
  have ht : t = (String.intercalate "\n" paragraphs).take 2000 :=
    (Except.ok.inj h).symm
  rw [ht]
  exact string_take_length_le _ 2000

/-- C2 witness: a concrete successful fetch stays within the bound. -/
theorem scrape_success_bounded_witness :
    scrape_page_body exGetOk exSoupOne "http://a" =
      Except.ok (("content of http://a").take 2000) ∧
    (scrape_page exGetOk exSoupOne "http://a").length ≤ 2000 :=
  ⟨rfl, scrape_success_bounded exGetOk exSoupOne "http://a" _ rfl⟩

/-- C9: `scrape_page` is total at its interface: whatever the fetch and
parse collaborators do, the bare `except Exception` handler turns every
exception of the `try` body into the empty string, and a normal return is
passed through, so a string is always returned and no exception
propagates. -/
theorem scrape_page_catches_everything
    (g : String → Except PyError HttpResponse)
    (s : String → Except PyError (List String)) (url : String) :
    (∀ e, scrape_page_body g s url = Except.error e → scrape_page g s url = "") ∧
    (∀ t, scrape_page_body g s url = Except.ok t → scrape_page g s url = t) := by
  constructor
  · intro e h
    unfold scrape_page
    rw [h]
  · intro t h
    unfold scrape_page
    rw [h]

/-- C9 witness: a fetch collaborator that raises a timeout is caught and
yields the empty string. -/
theorem scrape_page_catches_everything_witness :
    scrape_page_body exGetTimeout exSoupEmpty "http://a" =
      Except.error (PyError.requestError "timeout") ∧
    scrape_page exGetTimeout exSoupEmpty "http://a" = "" :=
  ⟨rfl, (scrape_page_catches_everything exGetTimeout exSoupEmpty "http://a").1
    (PyError.requestError "timeout") rfl⟩

/-- C10: when the fetch succeeds with a good status but the page has no
paragraph blocks, `scrape_page` returns the empty string — the very value
it returns on a failed fetch, so the caller cannot tell the two apart from
the returned PageContent alone. -/
theorem scrape_empty_page_indistinguishable
    (g : String → Except PyError HttpResponse)
    (s : String → Except PyError (List String)) (url : String) (res : HttpResponse)
    (hres : g url = Except.ok res) (hstatus : res.status_code < 400)
    (hp : s res.text = Except.ok []) :
    scrape_page g s url = "" ∧
    ∀ (gbad : String → Except PyError HttpResponse) e,
      gbad url = Except.error e → scrape_page gbad s url = "" := by
  have hok : raise_for_status res = Except.ok () := by
    unfold raise_for_status
    rw [if_neg]
    intro hand
    exact absurd hstatus (Nat.not_lt.mpr hand.1)
  constructor
  · unfold scrape_page scrape_page_body
    rw [hres, except_ok_bind, hok, except_ok_bind, hp, except_ok_bind]
    show (String.intercalate "\n" []).take 2000 = ""
    rw [string_take_eq]
    rfl
  · intro gbad e he
    unfold scrape_page scrape_page_body
    rw [he, except_error_bind]

/-- C10 witness: a concrete 200 response whose body has no paragraphs
yields the empty string, as does a timed-out fetch. -/
theorem scrape_empty_page_indistinguishable_witness :
    exGetEmptyPage "http://a" = Except.ok ⟨200, "<html></html>"⟩ ∧
    (200 : Nat) < 400 ∧
    exSoupEmpty "<html></html>" = Except.ok [] ∧
    scrape_page exGetEmptyPage exSoupEmpty "http://a" = "" ∧
    scrape_page exGetTimeout exSoupEmpty "http://a" = "" := by
  have h := scrape_empty_page_indistinguishable exGetEmptyPage exSoupEmpty "http://a"
    ⟨200, "<html></html>"⟩ rfl (by decide) rfl
  exact ⟨rfl, by decide, rfl, h.1,
    h.2 exGetTimeout (PyError.requestError "timeout") rfl⟩

/-- A provider stub returning three well-formed results. -/
def exDdgs3 : String → Nat → Except PyError (List Dict) :=
  fun _ _ => Except.ok [[("href", "u1")], [("href", "u2")], [("href", "u3")]]

/-- A fetch collaborator that times out on `"u2"` only. -/
def exGetFailU2 : String → Except PyError HttpResponse :=
  fun url => if url = "u2" then Except.error (PyError.requestError "timeout")
             else Except.ok ⟨200, url⟩

/-- C1: if the `try` body of `scrape_page` fails on the `i`-th URL, the
pipeline still outputs one entry per URL, the `i`-th entry is the empty
string, and every entry is the independent scrape of its own URL —
a single URL's failure never aborts the rest. -/
theorem scrape_failure_isolated
    (d : String → Nat → Except PyError (List Dict))
    (g : String → Except PyError HttpResponse)
    (s : String → Except PyError (List String))
    (q : String) (urls : List String)
    (hurls : duckduckgo_search d q 3 = Except.ok urls)
    (i : Nat) (hi : i < urls.length)
    (hfail : ∃ e, scrape_page_body g s (urls.get ⟨i, hi⟩) = Except.error e) :
    ∃ out, scrape_main d g s q = Except.ok out ∧
      out.length = urls.length ∧
      (∀ hi2 : i < out.length, out.get ⟨i, hi2⟩ = "") ∧
      (∀ j (hj : j < urls.length) (hj2 : j < out.length),
        out.get ⟨j, hj2⟩ = scrape_page g s (urls.get ⟨j, hj⟩)) := by
  refine ⟨urls.map (scrape_page g s), ?_, by simp, ?_, ?_⟩
  · unfold scrape_main
    rw [hurls, except_ok_bind]
    rfl
  · intro hi2
    obtain ⟨e, he⟩ := hfail
    have hmap : (urls.map (scrape_page g s)).get ⟨i, hi2⟩ =
        scrape_page g s (urls.get ⟨i, hi⟩) := by
      simp [List.get_eq_getElem, List.getElem_map]
    rw [hmap]
    unfold scrape_page
    rw [he]
  · intro j hj hj2
    simp [List.get_eq_getElem, List.getElem_map]

/-- C1 witness: three URLs where only the second fetch fails — three
entries, the second empty, the first and third populated. -/
theorem scrape_failure_isolated_witness :
    duckduckgo_search exDdgs3 "news" 3 = Except.ok ["u1", "u2", "u3"] ∧
    scrape_page_body exGetFailU2 exSoupOne "u2" =
      Except.error (PyError.requestError "timeout") ∧
    ∃ out, scrape_main exDdgs3 exGetFailU2 exSoupOne "news" = Except.ok out ∧
      out.length = 3 ∧
      (∀ hi2 : 1 < out.length, out.get ⟨1, hi2⟩ = "") ∧
      (∀ h0 : 0 < out.length, out.get ⟨0, h0⟩ = "content of u1") ∧
      (∀ h2 : 2 < out.length, out.get ⟨2, h2⟩ = "content of u3") := by
  refine ⟨rfl, rfl, ?_⟩
  obtain ⟨out, h1, h2, h3, h4⟩ :=
    scrape_failure_isolated exDdgs3 exGetFailU2 exSoupOne "news" ["u1", "u2", "u3"] rfl
      1 (by decide) ⟨PyError.requestError "timeout", rfl⟩
  refine ⟨out, h1, h2, h3, ?_, ?_⟩
  · intro h0
    rw [h4 0 (by decide) h0]
    show scrape_page exGetFailU2 exSoupOne "u1" = "content of u1"
    have hb : scrape_page_body exGetFailU2 exSoupOne "u1" =
        Except.ok (("content of u1").take 2000) := rfl
    unfold scrape_page
    rw [hb, string_take_eq]
    rfl
  · intro hj2
    rw [h4 2 (by decide) hj2]
    show scrape_page exGetFailU2 exSoupOne "u3" = "content of u3"
    have hb : scrape_page_body exGetFailU2 exSoupOne "u3" =
        Except.ok (("content of u3").take 2000) := rfl
    unfold scrape_page
    rw [hb, string_take_eq]
    rfl

/-- A provider stub returning two well-formed results. -/
def exDdgs2 : String → Nat → Except PyError (List Dict) :=
  fun _ _ => Except.ok [[("href", "w1")], [("href", "w2")]]

/-- C7: for every URL sequence Search returns, the scrape pipeline
outputs exactly one PageContent per URL, in the same order: the `i`-th
output entry is the scrape of the `i`-th URL. -/
theorem scrape_order_preserved
    (d : String → Nat → Except PyError (List Dict))
    (g : String → Except PyError HttpResponse)
    (s : String → Except PyError (List String))
    (q : String) (urls : List String)
    (hurls : duckduckgo_search d q 3 = Except.ok urls) :
    ∃ out, scrape_main d g s q = Except.ok out ∧
      out.length = urls.length ∧
      ∀ i (hi : i < urls.length) (hi2 : i < out.length),
        out.get ⟨i, hi2⟩ = scrape_page g s (urls.get ⟨i, hi⟩) := by
  refine ⟨urls.map (scrape_page g s), ?_, by simp, ?_⟩
  · unfold scrape_main
    rw [hurls, except_ok_bind]
    rfl
  · intro i hi hi2
    simp [List.get_eq_getElem, List.getElem_map]

/-- C7 witness: two URLs yield two entries in the provider's order. -/
theorem scrape_order_preserved_witness :
    duckduckgo_search exDdgs2 "q" 3 = Except.ok ["w1", "w2"] ∧
    ∃ out, scrape_main exDdgs2 exGetOk exSoupOne "q" = Except.ok out ∧
      out.length = 2 ∧
      (∀ h0 : 0 < out.length, out.get ⟨0, h0⟩ = scrape_page exGetOk exSoupOne "w1") ∧
      (∀ h1 : 1 < out.length, out.get ⟨1, h1⟩ = scrape_page exGetOk exSoupOne "w2") := by
  refine ⟨rfl, ?_⟩
  obtain ⟨out, h1, h2, h3⟩ :=
    scrape_order_preserved exDdgs2 exGetOk exSoupOne "q" ["w1", "w2"] rfl
  exact ⟨out, h1, h2, fun h0 => h3 0 (by decide) h0, fun hb => h3 1 (by decide) hb⟩

/-- C6: with zero search results, the scrape pipeline outputs zero
PageContent entries and the notifier message reports a count of 0. -/
theorem zero_results_zero_entries
    (d : String → Nat → Except PyError (List Dict))
    (g : String → Except PyError HttpResponse)
    (s : String → Except PyError (List String))
    (fsearch : String → Nat → Except PyError (List Dict)) (q : String)
    (hd : d q 3 = Except.ok []) (hf : fsearch q 3 = Except.ok []) :
    scrape_main d g s q = Except.ok [] ∧
    ∃ r, search_and_notify fsearch q = Except.ok r ∧ r.urls = [] ∧
      r.notify_message = "Search done for '" ++ q ++ "', found 0 results." := by
  have hsearch : duckduckgo_search d q 3 = Except.ok [] := by
    unfold duckduckgo_search
    rw [hd, except_ok_bind]
    rfl
  refine ⟨?_, ?_⟩
  · unfold scrape_main
    rw [hsearch, except_ok_bind]
    rfl
  · refine ⟨⟨[],
      "Search done for '" ++ q ++ "', found " ++ toString (0 : Nat) ++ " results.",
      ["notify-send", "TinyLlama",
        "Search done for '" ++ q ++ "', found " ++ toString (0 : Nat) ++ " results."]⟩,
      ?_, rfl, ?_⟩
    · unfold search_and_notify
      rw [hf, except_ok_bind]
      rfl
    · show "Search done for '" ++ q ++ "', found " ++ toString (0 : Nat) ++ " results." =
        "Search done for '" ++ q ++ "', found 0 results."
      rw [String.append_assoc, String.append_assoc]
      rfl

/-- A provider stub that finds nothing. -/
def exDdgsNone : String → Nat → Except PyError (List Dict) :=
  fun _ _ => Except.ok []

/-- C6 witness: a provider with no results gives an empty pipeline output
and a "found 0 results." message. -/
theorem zero_results_zero_entries_witness :
    exDdgsNone "nothing" 3 = Except.ok [] ∧
    scrape_main exDdgsNone exGetOk exSoupOne "nothing" = Except.ok [] ∧
    ∃ r, search_and_notify exDdgsNone "nothing" = Except.ok r ∧ r.urls = [] ∧
      r.notify_message = "Search done for 'nothing', found 0 results." := by
  have h := zero_results_zero_entries exDdgsNone exGetOk exSoupOne exDdgsNone "nothing" rfl rfl
  obtain ⟨r, hr, hurls, hmsg⟩ := h.2
  exact ⟨rfl, h.1, r, hr, hurls, hmsg.trans (by rw [String.append_assoc]; rfl)⟩

/-- A deterministic provider stub ignoring its arguments. -/
def exStubA : String → Nat → Except PyError (List Dict) :=
  fun _ _ => Except.ok [[("href", "x")]]

/-- A deterministic provider stub that inspects its limit argument. -/
def exStubB : String → Nat → Except PyError (List Dict) :=
  fun _ n => if n = 3 then Except.ok [[("href", "x")]] else Except.ok []

/-- C8: the Search step is deterministic in its provider's answer: two
invocations whose providers give the same response for the query and
limit yield the same ordered URL sequence. -/
theorem search_deterministic
    (f1 f2 : String → Nat → Except PyError (List Dict)) (q : String) (n : Nat)
    (h : f1 q n = f2 q n) :
    duckduckgo_search f1 q n = duckduckgo_search f2 q n := by
  unfold duckduckgo_search
  rw [h]

/-- C8 witness: two stubs agreeing at the call arguments produce
identical results. -/
theorem search_deterministic_witness :
    exStubA "q" 3 = exStubB "q" 3 ∧
    duckduckgo_search exStubA "q" 3 = duckduckgo_search exStubB "q" 3 :=
  ⟨rfl, search_deterministic exStubA exStubB "q" 3 rfl⟩

/-- C5: every successful `search_and_notify` run delivers the message
"Search done for '<query>', found <count> results." where `<count>` is
the number of URLs found, and passes it to `notify-send`. -/
theorem notify_message_format
    (fsearch : String → Nat → Except PyError (List Dict)) (q : String) (r : NotifyRun)
    (h : search_and_notify fsearch q = Except.ok r) :
    r.notify_message =
      "Search done for '" ++ q ++ "', found " ++ toString r.urls.length ++ " results." ∧
    r.notify_cmd = ["notify-send", "TinyLlama", r.notify_message] := by
  unfold search_and_notify at h
  obtain ⟨results, hres, h⟩ := except_bind_ok_inv h
  obtain ⟨urls, hmap, h⟩ := except_bind_ok_inv h
  have hrec := Except.ok.inj h
  rw [← hrec]
  exact ⟨rfl, rfl⟩

/-- A search stub returning three results with `'url'` fields, as
consumed by `daily_learn_notify.py`. -/
def exSearch3 : String → Nat → Except PyError (List Dict) :=
  fun _ _ => Except.ok [[("url", "a")], [("url", "b")], [("url", "c")]]

/-- C5 witness: query "latest tech news" with a stub returning 3 URLs
yields exactly "Search done for 'latest tech news', found 3 results." -/
theorem notify_message_format_witness :
    ∃ r, search_and_notify exSearch3 "latest tech news" = Except.ok r ∧
      r.urls = ["a", "b", "c"] ∧
      r.notify_message = "Search done for 'latest tech news', found 3 results." := by
  have h : search_and_notify exSearch3 "latest tech news" = Except.ok
      ⟨["a", "b", "c"],
        "Search done for '" ++ "latest tech news" ++ "', found " ++
          toString (3 : Nat) ++ " results.",
        ["notify-send", "TinyLlama",
          "Search done for '" ++ "latest tech news" ++ "', found " ++
            toString (3 : Nat) ++ " results."]⟩ := rfl
  obtain ⟨hmsg, -⟩ := notify_message_format exSearch3 "latest tech news" _ h
  exact ⟨_, h, rfl, hmsg.trans (by decide)⟩

/-- A provider whose network call raises (service unreachable). -/
def unreachableProvider : String → Nat → Except PyError (List Dict) :=
  fun _ _ => Except.error (PyError.requestError "connection failed")

/-- A provider returning malformed data: a result dict without the
expected key. -/
def malformedProvider : String → Nat → Except PyError (List Dict) :=
  fun _ _ => Except.ok [[("title", "no href field")]]

/-- C3 counterexample: with an unreachable provider, the Search step does
NOT report an error without crashing the caller — the exception escapes
`duckduckgo_search` and `search_and_notify` uncaught, so neither returns
normally. -/
theorem search_error_crashes_caller :
    duckduckgo_search unreachableProvider "latest tech news" 3 =
      Except.error (PyError.requestError "connection failed") ∧
    (¬ ∃ urls, duckduckgo_search unreachableProvider "latest tech news" 3 =
      Except.ok urls) ∧
    search_and_notify unreachableProvider "latest tech news" =
      Except.error (PyError.requestError "connection failed") ∧
    ¬ ∃ r, search_and_notify unreachableProvider "latest tech news" = Except.ok r := by
  refine ⟨rfl, ?_, rfl, ?_⟩
  · rintro ⟨urls, h⟩
    exact Except.noConfusion h
  · rintro ⟨r, h⟩
    exact Except.noConfusion h

/-- C3 amended: a provider error (unreachable service) or malformed data
(missing key) propagates uncaught from the Search step and aborts the
caller, in both scripts; a provider result of zero URLs is a normal,
non-error outcome in both. -/
theorem search_error_propagates
    (f : String → Nat → Except PyError (List Dict)) (q : String) (n : Nat) :
    (∀ e, f q n = Except.error e → duckduckgo_search f q n = Except.error e) ∧
    (∀ d rest, f q n = Except.ok (d :: rest) → d.lookup "href" = none →
      duckduckgo_search f q n = Except.error (PyError.keyError "href")) ∧
    (f q n = Except.ok [] → duckduckgo_search f q n = Except.ok []) ∧
    (∀ e, f q 3 = Except.error e → search_and_notify f q = Except.error e) ∧
    (f q 3 = Except.ok [] → ∃ r, search_and_notify f q = Except.ok r ∧ r.urls = []) := by
  refine ⟨?_, ?_, ?_, ?_, ?_⟩
  · intro e he
    unfold duckduckgo_search
    rw [he, except_error_bind]
  · intro d rest hd hlookup
    unfold duckduckgo_search
    rw [hd, except_ok_bind, List.mapM_cons]
    unfold dictGet
    rw [hlookup]
    rfl
  · intro h
    unfold duckduckgo_search
    rw [h, except_ok_bind]
    rfl
  · intro e he
    unfold search_and_notify
    rw [he, except_error_bind]
  · intro h
    refine ⟨⟨[],
      "Search done for '" ++ q ++ "', found " ++ toString (0 : Nat) ++ " results.",
      ["notify-send", "TinyLlama",
        "Search done for '" ++ q ++ "', found " ++ toString (0 : Nat) ++ " results."]⟩,
      ?_, rfl⟩
    unfold search_and_notify
    rw [h, except_ok_bind]
    rfl

/-- C3 amended witness: malformed provider data becomes an uncaught
`KeyError` escaping the Search step. -/
theorem search_error_propagates_witness :
    malformedProvider "q" 3 = Except.ok [[("title", "no href field")]] ∧
    duckduckgo_search malformedProvider "q" 3 =
      Except.error (PyError.keyError "href") := by
  refine ⟨rfl, ?_⟩
  exact (search_error_propagates malformedProvider "q" 3).2.1
    [("title", "no href field")] [] rfl rfl

/-- A provider that yields a result even when asked for zero results. -/
def limitIgnoringProvider : String → Nat → Except PyError (List Dict) :=
  fun _ _ => Except.ok [[("href", "http://example.com")]]

/-- C4 counterexample: with limit 0, `duckduckgo_search` neither rejects
the limit nor short-circuits to zero results: the provider IS invoked
with `max_results = 0` (the trace records the call), and whatever URL the
provider yields is returned. -/
theorem search_limit_zero_invokes_provider :
    (duckduckgo_search_traced limitIgnoringProvider "q" 0).2 = [("q", 0)] ∧
    (duckduckgo_search_traced limitIgnoringProvider "q" 0).1 =
      Except.ok ["http://example.com"] :=
  ⟨rfl, rfl⟩

/-- C4 amended: for limit 0, the Search step performs no validation: it
invokes the provider with `max_results = 0` and returns exactly the URLs
extracted from the provider's response. -/
theorem search_limit_zero_passthrough
    (f : String → Nat → Except PyError (List Dict)) (q : String) (hrefs : List String)
    (h : f q 0 = Except.ok (hrefs.map (fun v => [("href", v)]))) :
    (duckduckgo_search_traced f q 0).2 = [(q, 0)] ∧
    (duckduckgo_search_traced f q 0).1 = Except.ok hrefs := by
  refine ⟨rfl, ?_⟩
  show duckduckgo_search f q 0 = Except.ok hrefs
  unfold duckduckgo_search
  rw [h, except_ok_bind, mapM_dictGet]

/-- A provider answering two results at limit 0. -/
def exProviderAtZero : String → Nat → Except PyError (List Dict) :=
  fun _ _ => Except.ok [[("href", "u1")], [("href", "u2")]]

/-- C4 amended witness: at limit 0 the provider is called with 0 and its
two URLs come back unfiltered. -/
theorem search_limit_zero_passthrough_witness :
    exProviderAtZero "news" 0 = Except.ok [[("href", "u1")], [("href", "u2")]] ∧
    (duckduckgo_search_traced exProviderAtZero "news" 0).2 = [("news", 0)] ∧
    (duckduckgo_search_traced exProviderAtZero "news" 0).1 = Except.ok ["u1", "u2"] := by
  have h := search_limit_zero_passthrough exProviderAtZero "news" ["u1", "u2"] rfl
  exact ⟨rfl, h.1, h.2⟩

end CreditBoost
